import Mathlib

/-!
Verification of the r2d2-redis connection-manager adapter.

The repository is a thin adapter (`RedisConnectionManager`) implementing the
`r2d2::ManageConnection` contract over the external `redis` client library.
The adapter code itself (`src/lib.rs`) is embedded directly; the behaviour of
the external client (URL parsing, connection establishment, the PING
round-trip, the tracked open flag) is modelled explicitly from the
specification of the connection contract, with each such definition marked
`Modelled from the spec:` in its doc comment.
-/

namespace RedisR2d2

/-- Error classification mirroring the error taxonomy of the design:
construction-time address errors versus runtime transport errors. -/
inductive ErrorKind where
  | invalidAddress
  | connectTimeout
  | networkUnreachable
  | connectionRefused
  | protocolHandshakeFailed
  | ioError
  | ioTimeout
  | responseError
  deriving DecidableEq, Repr

/-- A `redis::RedisError`: a kind plus the underlying detail string
(the wrapped cause). -/
structure RedisError where
  kind : ErrorKind
  detail : String
  deriving DecidableEq, Repr

/-- Mirrors `redis::ConnectionInfo`: the validated endpoint descriptor
(host, port, database index, optional password). -/
structure ConnectionInfo where
  host : String
  port : Nat
  db : Nat
  passwd : Option String
  deriving DecidableEq, Repr

/-- A parameter input accepted by the constructors (the
`redis::IntoConnectionInfo` bound): either a URL string or an already
structured descriptor. -/
inductive Params where
  | url (s : String)
  | info (ci : ConnectionInfo)
  deriving DecidableEq, Repr

-- Decidable equality for `Except`, needed to evaluate concrete results.
deriving instance DecidableEq for Except

/-- Splits a character list on a separator character; mirrors splitting a
string on a one-character separator. -/
def splitOnChar (c : Char) : List Char → List (List Char)
  | [] => [[]]
  | x :: xs =>
    if x = c then [] :: splitOnChar c xs
    else
      match splitOnChar c xs with
      | [] => [[x]]
      | y :: ys => (x :: y) :: ys

/-- Tests whether the first character list starts the second. -/
def startsWithChars : List Char → List Char → Bool
  | [], _ => true
  | _ :: _, [] => false
  | p :: ps, x :: xs => p = x && startsWithChars ps xs

/-- Folds a list of decimal digit characters into a natural number. -/
def digitsToNat (l : List Char) : Nat :=
  l.foldl (fun acc c => acc * 10 + (c.toNat - 48)) 0

/-- Parses a nonempty all-digit character list as a natural number. -/
def parseNat (l : List Char) : Option Nat :=
  if l.isEmpty then none
  else if l.all Char.isDigit then some (digitsToNat l) else none

/-- Parses the `host[:port]` component of a redis URL.  The default redis
port is 6379. -/
def parseHostPort (hp : List Char) : Option (String × Nat) :=
  match splitOnChar ':' hp with
  | [h] => if h.isEmpty then none else some (⟨h⟩, 6379)
  | [h, p] =>
    if h.isEmpty then none
    else match parseNat p with
      | some n => some (⟨h⟩, n)
      | none => none
  | _ => none

/-- Parses the optional `/db` suffix of a redis URL; absent or empty means
database 0. -/
def parseDb (parts : List (List Char)) : Option Nat :=
  match parts with
  | [] => some 0
  | [d] => if d.isEmpty then some 0 else parseNat d
  | _ => none

/-- Modelled from the spec: `parseParams` accepts a URI-like string naming
scheme, host, port, and optional auth/db-index fields, and fails when the
scheme or host cannot be resolved syntactically.  This parsing is performed
by the external redis client library (`IntoConnectionInfo` for strings),
outside this repository; it is pure and performs no I/O. -/
def parseRedisUrl (s : String) : Option ConnectionInfo :=
  let cs := s.data
  if startsWithChars "redis://".data cs then
    let rest := cs.drop 8
    match splitOnChar '/' rest with
    | [] => none
    | hostpart :: dbparts =>
      let authHost : Option (Option String × List Char) :=
        match splitOnChar '@' hostpart with
        | [hp] => some (none, hp)
        | [auth, hp] => some (some ⟨auth⟩, hp)
        | _ => none
      match authHost with
      | none => none
      | some (pw, hp) =>
        match parseHostPort hp, parseDb dbparts with
        | some (h, p), some db => some ⟨h, p, db, pw⟩
        | _, _ => none
  else none

/-- Modelled from the spec: conversion of a parameter input into validated
`ConnectionInfo` (the redis client's `into_connection_info`).  A URL that
does not parse yields a single construction-time invalid-address error; a
structured descriptor is already validated and converts as itself.  Pure,
no I/O. -/
def intoConnectionInfo : Params → Except RedisError ConnectionInfo
  | .url s =>
    match parseRedisUrl s with
    | some ci => .ok ci
    | none => .error ⟨.invalidAddress, "Redis URL did not parse"⟩
  | .info ci => .ok ci

/-- Mirrors `struct RedisConnectionManager`: the validated connection
parameters plus the optional connect timeout (milliseconds). -/
structure RedisConnectionManager where
  connection_info : ConnectionInfo
  timeout : Option Nat
  deriving DecidableEq, Repr

/-- Network events an adapter operation can emit, recorded so that the
absence of I/O, of retries and of logging is statable: a connection
attempt toward an endpoint, or one probe round-trip on an existing
connection. -/
inductive NetEvent where
  | connectAttempt (ci : ConnectionInfo) (timeout : Option Nat)
  | pingRoundTrip
  deriving DecidableEq, Repr

/-- Mirrors `RedisConnectionManager::with_timeout`: converts the parameters
eagerly and stores them with the optional timeout.  The paired event list
records the network I/O performed (none). -/
def with_timeout (params : Params) (t : Option Nat) :
    Except RedisError RedisConnectionManager × List NetEvent :=
  ((intoConnectionInfo params).map (fun ci => ⟨ci, t⟩), [])

/-- Mirrors `RedisConnectionManager::new`: delegates to `with_timeout`
with no timeout. -/
def new (params : Params) :
    Except RedisError RedisConnectionManager × List NetEvent :=
  with_timeout params none

/-- Modelled from the spec: the outcome of one probe round-trip as
delivered by the transport: a successful reply value, a protocol error
reply, a transport-level failure, or a read timeout. -/
inductive ProbeOutcome where
  | reply (v : String)
  | errReply (e : String)
  | transportError (d : String)
  | timedOut
  deriving DecidableEq, Repr

/-- Modelled from the spec: a live transport-layer session.  It exposes the
tracked open flag maintained by prior I/O (`is_open`), and its interaction
with the server is an oracle `script` giving the outcome of each successive
probe, with `served` counting the probes already consumed. -/
structure Connection where
  is_open : Bool
  script : Nat → ProbeOutcome
  served : Nat

/-- Modelled from the spec: one PING round-trip over an existing transport
(`redis::cmd("PING").query::<()>(conn)`).  A closed transport or transport
failure or timeout yields an error carrying the underlying cause and marks
the connection's tracked state closed; a protocol error reply yields an
error with the session still open.  The unit result conversion of the
external client accepts any successful reply value regardless of its
content, so a successful reply — whatever its value — yields success. -/
def pingQuery (conn : Connection) : Except RedisError Unit × Connection :=
  if conn.is_open then
    match conn.script conn.served with
    | .reply _ => (.ok (), { conn with served := conn.served + 1 })
    | .errReply e =>
      (.error ⟨.responseError, e⟩, { conn with served := conn.served + 1 })
    | .transportError d =>
      (.error ⟨.ioError, d⟩,
        { conn with is_open := false, served := conn.served + 1 })
    | .timedOut =>
      (.error ⟨.ioTimeout, "read timed out"⟩,
        { conn with is_open := false, served := conn.served + 1 })
  else (.error ⟨.ioError, "broken pipe"⟩, conn)

/-- Mirrors `fn is_valid`: issues the PING probe on the connection and
returns its result.  The event list records the single probe round-trip. -/
def is_valid (_m : RedisConnectionManager) (conn : Connection) :
    (Except RedisError Unit × Connection) × List NetEvent :=
  (pingQuery conn, [.pingRoundTrip])

/-- Mirrors `fn has_broken`: the boolean negation of the connection's
tracked open flag.  The event list records the network I/O performed
(none). -/
def has_broken (_m : RedisConnectionManager) (conn : Connection) :
    Bool × List NetEvent :=
  (!conn.is_open, [])

/-- Modelled from the spec: how the transport resolves one connection
attempt toward an endpoint: accepted with a server behaviour, refused,
unreachable, or rejected during the protocol handshake. -/
inductive HandshakeOutcome where
  | accepted (script : Nat → ProbeOutcome)
  | refused
  | unreachable
  | handshakeFailed (d : String)

/-- Modelled from the spec: the state of the network as the transport sees
it: how long the handshake toward an endpoint takes (milliseconds) and how
the attempt resolves. -/
structure Net where
  handshakeTime : ConnectionInfo → Nat
  outcome : ConnectionInfo → HandshakeOutcome

/-- Mirrors `redis::Client`: holds the validated connection info. -/
structure Client where
  connection_info : ConnectionInfo
  deriving DecidableEq, Repr

/-- Modelled from the spec: `redis::Client::open` on already-validated
`ConnectionInfo` performs no I/O and cannot fail (the conversion of a
`ConnectionInfo` to itself is the identity); construction-time validation
already happened at adapter construction. -/
def Client.openClient (ci : ConnectionInfo) : Except RedisError Client :=
  .ok ⟨ci⟩

/-- Lifts a transport handshake outcome into the connection result: an
accepted handshake yields a fresh connection whose tracked state is open
and whose probe counter starts at zero. -/
def liftHandshake : HandshakeOutcome → Except RedisError Connection
  | .accepted script => .ok ⟨true, script, 0⟩
  | .refused => .error ⟨.connectionRefused, "connection refused"⟩
  | .unreachable => .error ⟨.networkUnreachable, "network unreachable"⟩
  | .handshakeFailed d => .error ⟨.protocolHandshakeFailed, d⟩

/-- Modelled from the spec: `get_connection` blocks on the transport's own
default (potentially unbounded) bound, so it resolves by the network
outcome alone. -/
def Client.get_connection (c : Client) (net : Net) :
    Except RedisError Connection :=
  liftHandshake (net.outcome c.connection_info)

/-- Modelled from the spec: `get_connection_with_timeout` fails with a
connect-timeout error when the handshake does not complete within the
bound, and otherwise resolves by the network outcome. -/
def Client.get_connection_with_timeout (c : Client) (d : Nat) (net : Net) :
    Except RedisError Connection :=
  if net.handshakeTime c.connection_info > d then
    .error ⟨.connectTimeout, "connect timed out"⟩
  else liftHandshake (net.outcome c.connection_info)

/-- Mirrors `fn connect`: opens a client on the stored connection info and
dispatches on the stored optional timeout, using the timed attempt when a
timeout was configured and the default attempt otherwise.  The event list
records the single connection attempt. -/
def connect (m : RedisConnectionManager) (net : Net) :
    Except RedisError Connection × List NetEvent :=
  ((Client.openClient m.connection_info).bind (fun client =>
      match m.timeout with
      | some t => client.get_connection_with_timeout t net
      | none => client.get_connection net),
    [.connectAttempt m.connection_info m.timeout])

/-- Holds when `n` successive `is_valid` calls starting from `conn` all
succeed, threading the connection state through each call. -/
def keepsSucceeding (m : RedisConnectionManager) (conn : Connection) :
    Nat → Prop
  | 0 => True
  | n + 1 => (((is_valid m conn).1).1 = .ok ()) ∧
      keepsSucceeding m (((is_valid m conn).1).2) n

/-- A connection is still live for `n` more probes: its tracked state is
open and each of its next `n` probe outcomes is a successful reply. -/
def liveFor (conn : Connection) (n : Nat) : Prop :=
  conn.is_open = true ∧
    ∀ i, i < n → ∃ v, conn.script (conn.served + i) = .reply v

/-- An operation the external pool may invoke on the adapter: a fresh
connection attempt, an active validation of the `i`-th pooled connection,
or a passive brokenness check of the `i`-th pooled connection. -/
inductive PoolOp where
  | doConnect
  | doValidate (i : Nat)
  | doCheckBroken (i : Nat)

/-- The observable state of the adapter plus pool: the adapter value, the
pooled connections, and the accumulated network event trace. -/
structure SysState where
  mgr : RedisConnectionManager
  conns : List Connection
  trace : List NetEvent

/-- Applies one pool operation to the system state, calling the adapter
operation it names and recording its events. -/
def stepOp (net : Net) (s : SysState) : PoolOp → SysState
  | .doConnect =>
    match connect s.mgr net with
    | (.ok c, ev) => ⟨s.mgr, s.conns ++ [c], s.trace ++ ev⟩
    | (.error _, ev) => ⟨s.mgr, s.conns, s.trace ++ ev⟩
  | .doValidate i =>
    match s.conns.get? i with
    | some c => ⟨s.mgr, s.conns.set i ((is_valid s.mgr c).1).2,
        s.trace ++ (is_valid s.mgr c).2⟩
    | none => s
  | .doCheckBroken i =>
    match s.conns.get? i with
    | some c => ⟨s.mgr, s.conns, s.trace ++ (has_broken s.mgr c).2⟩
    | none => s

/-- Runs a sequence of pool operations from a starting system state. -/
def runOps (net : Net) (s : SysState) : List PoolOp → SysState
  | [] => s
  | op :: ops => runOps net (stepOp net s op) ops

/-- A server behaviour that answers every probe with the canonical PONG
reply. -/
def pongScript : Nat → ProbeOutcome := fun _ => .reply "PONG"

/-- A concrete validated endpoint descriptor, used by witnesses. -/
def ciH : ConnectionInfo := ⟨"h", 6379, 0, none⟩

/-- A concrete adapter with no connect timeout, used by witnesses. -/
def mgrH : RedisConnectionManager := ⟨ciH, none⟩

/-- A concrete adapter with a 5 ms connect timeout, used by witnesses. -/
def mgrH5 : RedisConnectionManager := ⟨ciH, some 5⟩

/-- An open connection whose server answers the probe with a reply other
than PONG. -/
def connNotPong : Connection := ⟨true, fun _ => .reply "NOTPONG", 0⟩

/-- An open connection whose next probe fails at the transport level. -/
def connFail : Connection := ⟨true, fun _ => .transportError "reset", 0⟩

/-- An open connection whose server always answers PONG. -/
def connLive : Connection := ⟨true, pongScript, 0⟩

/-- A network that accepts every handshake immediately. -/
def netAccept : Net := ⟨fun _ => 0, fun _ => .accepted pongScript⟩

/-- A network that refuses every connection attempt. -/
def netRefuse : Net := ⟨fun _ => 0, fun _ => .refused⟩

/-- A network whose handshake takes 10 ms. -/
def netSlow : Net := ⟨fun _ => 10, fun _ => .accepted pongScript⟩

/-- Every conversion failure of a parameter input is an invalid-address
error. -/
theorem intoConnectionInfo_error_kind (p : Params) (e : RedisError)
    (h : intoConnectionInfo p = .error e) : e.kind = .invalidAddress := by
  cases p with
  | url s =>
    cases hp : parseRedisUrl s <;> simp [intoConnectionInfo, hp] at h
    simp [← h]
  | info ci => simp [intoConnectionInfo] at h

/-- Every error produced by lifting a handshake outcome is a
transport-level error. -/
theorem liftHandshake_error_kind (o : HandshakeOutcome) (e : RedisError)
    (h : liftHandshake o = .error e) :
    e.kind = .connectionRefused ∨ e.kind = .networkUnreachable ∨
      e.kind = .protocolHandshakeFailed := by
  cases o <;> simp [liftHandshake] at h
  all_goals simp [← h]

/-- Every error produced by `connect` is a runtime network error, never a
parameter error. -/
theorem connect_error_kind (m : RedisConnectionManager) (net : Net)
    (e : RedisError) (h : (connect m net).1 = .error e) :
    e.kind = .connectTimeout ∨ e.kind = .connectionRefused ∨
      e.kind = .networkUnreachable ∨ e.kind = .protocolHandshakeFailed := by
  unfold connect Client.openClient at h
  cases hm : m.timeout with
  | none =>
    rw [hm] at h
    simp [Except.bind, Client.get_connection] at h
    rcases liftHandshake_error_kind _ _ h with h1 | h1 | h1 <;> simp [h1]
  | some d =>
    rw [hm] at h
    simp [Except.bind, Client.get_connection_with_timeout] at h
    by_cases hgt : net.handshakeTime m.connection_info > d
    · rw [if_pos hgt] at h
      simp at h
      simp [← h]
    · rw [if_neg hgt] at h
      rcases liftHandshake_error_kind _ _ h with h1 | h1 | h1 <;> simp [h1]

/-- A successfully established connection starts with its tracked
transport state open. -/
theorem liftHandshake_ok_open (o : HandshakeOutcome) (c : Connection)
    (h : liftHandshake o = .ok c) : c.is_open = true := by
  cases o <;> simp [liftHandshake] at h
  simp [← h]

/-- Each single pool operation leaves the adapter value unchanged. -/
theorem stepOp_mgr (net : Net) (s : SysState) (op : PoolOp) :
    (stepOp net s op).mgr = s.mgr := by
  cases op <;> simp only [stepOp] <;> split <;> rfl

/-- C1 counterexample: on a connection whose server answers the probe with
the reply NOTPONG — a reply other than the canonical PONG — `is_valid`
returns success, so a reply value other than PONG does not yield an
error. -/
theorem C1_counterexample :
    ((is_valid mgrH connNotPong).1).1 = .ok () ∧
    connNotPong.script connNotPong.served ≠ ProbeOutcome.reply "PONG" :=
  ⟨rfl, by decide⟩

/-- C1 (amended): `is_valid` succeeds exactly when the probe round-trip
completes with some successful reply — whatever its value — and any
transport error, timeout, or error reply yields an error wrapping the
underlying cause; the reply value is not compared against PONG. -/
theorem C1_is_valid_amended (m : RedisConnectionManager) (conn : Connection) :
    ((((is_valid m conn).1).1 = .ok ()) ↔
      (conn.is_open = true ∧ ∃ v, conn.script conn.served = .reply v)) ∧
    (∀ d, conn.is_open = true → conn.script conn.served = .transportError d →
      ((is_valid m conn).1).1 = .error ⟨.ioError, d⟩) := by
  constructor
  · cases hOpen : conn.is_open
    · simp [is_valid, pingQuery, hOpen]
    · cases hs : conn.script conn.served <;>
        simp [is_valid, pingQuery, hOpen, hs]
  · intro d hOpen hs
    simp [is_valid, pingQuery, hOpen, hs]

/-- C1 witness: on a connection whose probe fails at the transport level
with cause "reset", `is_valid` returns an I/O error carrying that cause. -/
theorem C1_is_valid_amended_witness :
    connFail.is_open = true ∧
    connFail.script connFail.served = ProbeOutcome.transportError "reset" ∧
    ((is_valid mgrH connFail).1).1 = .error ⟨.ioError, "reset"⟩ :=
  ⟨rfl, rfl, (C1_is_valid_amended mgrH connFail).2 "reset" rfl rfl⟩

/-- C2: `has_broken` returns the boolean negation of the connection's
tracked open flag, performs no network I/O, and is total (it always
returns a boolean, with no error path in its type). -/
theorem C2_has_broken_passive (m : RedisConnectionManager)
    (conn : Connection) :
    (has_broken m conn).1 = !conn.is_open ∧ (has_broken m conn).2 = [] :=
  ⟨rfl, rfl⟩

/-- C3: construction performs no network I/O; every construction failure
is an invalid-address error; and after a successful construction a
`connect` call can only fail with a runtime network error, never a
parameter error. -/
theorem C3_eager_validation (p : Params) (t : Option Nat) :
    (with_timeout p t).2 = [] ∧
    (∀ e, (with_timeout p t).1 = .error e → e.kind = .invalidAddress) ∧
    (∀ m net e, (with_timeout p t).1 = .ok m → (connect m net).1 = .error e →
      e.kind ≠ .invalidAddress) := by
  refine ⟨rfl, ?_, ?_⟩
  · intro e he
    unfold with_timeout at he
    cases hp : intoConnectionInfo p with
    | ok ci => rw [hp] at he; simp [Except.map] at he
    | error e2 =>
      rw [hp] at he
      simp [Except.map] at he
      exact he ▸ intoConnectionInfo_error_kind p e2 hp
  · intro m net e _ hc
    rcases connect_error_kind m net e hc with h1 | h1 | h1 | h1 <;> simp [h1]

/-- C3 witness: a malformed URL fails construction with the
invalid-address error, and on a successfully constructed adapter a refused
connection attempt yields a connection-refused error, which is not an
invalid-address error. -/
theorem C3_eager_validation_witness :
    ((with_timeout (Params.url "http://x") none).1 =
      .error ⟨.invalidAddress, "Redis URL did not parse"⟩) ∧
    RedisError.kind ⟨.invalidAddress, "Redis URL did not parse"⟩ =
      .invalidAddress ∧
    ((with_timeout (Params.url "redis://h") none).1 = .ok mgrH) ∧
    ((connect mgrH netRefuse).1 =
      .error ⟨.connectionRefused, "connection refused"⟩) ∧
    RedisError.kind ⟨.connectionRefused, "connection refused"⟩ ≠
      .invalidAddress :=
  ⟨by decide,
   (C3_eager_validation (Params.url "http://x") none).2.1 _ (by decide),
   by decide, rfl,
   (C3_eager_validation (Params.url "redis://h") none).2.2 mgrH netRefuse _
     (by decide) rfl⟩

/-- C4: `connect` dispatches on the stored optional timeout — the timed
attempt with exactly the stored bound when one was configured, the
transport default attempt otherwise — and with a configured timeout it
fails with the connect-timeout error whenever the handshake exceeds the
bound. -/
theorem C4_connect_dispatch (m : RedisConnectionManager) (net : Net) :
    ((connect m net).1 = match m.timeout with
      | some d => Client.get_connection_with_timeout ⟨m.connection_info⟩ d net
      | none => Client.get_connection ⟨m.connection_info⟩ net) ∧
    (∀ d, m.timeout = some d → net.handshakeTime m.connection_info > d →
      (connect m net).1 = .error ⟨.connectTimeout, "connect timed out"⟩) := by
  constructor
  · rfl
  · intro d hd hgt
    simp [connect, Client.openClient, Except.bind, hd,
      Client.get_connection_with_timeout, hgt]

/-- C4 witness: an adapter with a 5 ms timeout on a network whose
handshake takes 10 ms fails with the connect-timeout error. -/
theorem C4_connect_dispatch_witness :
    mgrH5.timeout = some 5 ∧
    netSlow.handshakeTime mgrH5.connection_info > 5 ∧
    (connect mgrH5 netSlow).1 = .error ⟨.connectTimeout, "connect timed out"⟩ :=
  ⟨rfl, by decide, (C4_connect_dispatch mgrH5 netSlow).2 5 rfl (by decide)⟩

/-- C5: a connection produced by a successful construction followed by a
successful `connect` has `has_broken` false immediately, before any other
I/O on it. -/
theorem C5_fresh_connection_not_broken (p : Params) (t : Option Nat)
    (m : RedisConnectionManager) (net : Net) (c : Connection)
    (_hm : (with_timeout p t).1 = .ok m) (hc : (connect m net).1 = .ok c) :
    (has_broken m c).1 = false := by
  have hopen : c.is_open = true := by
    unfold connect Client.openClient at hc
    cases hmt : m.timeout with
    | none =>
      rw [hmt] at hc
      simp [Except.bind, Client.get_connection] at hc
      exact liftHandshake_ok_open _ _ hc
    | some d =>
      rw [hmt] at hc
      simp [Except.bind, Client.get_connection_with_timeout] at hc
      by_cases hgt : net.handshakeTime m.connection_info > d
      · rw [if_pos hgt] at hc; simp at hc
      · rw [if_neg hgt] at hc; exact liftHandshake_ok_open _ _ hc
  simp [has_broken, hopen]

/-- C5 witness: constructing from a valid URL and connecting over an
accepting network yields a connection on which `has_broken` is false. -/
theorem C5_fresh_connection_not_broken_witness :
    ((with_timeout (Params.url "redis://h") none).1 = .ok mgrH) ∧
    ((connect mgrH netAccept).1 = .ok ⟨true, pongScript, 0⟩) ∧
    (has_broken mgrH ⟨true, pongScript, 0⟩).1 = false :=
  ⟨by decide, rfl,
   C5_fresh_connection_not_broken (Params.url "redis://h") none mgrH netAccept
     ⟨true, pongScript, 0⟩ (by decide) rfl⟩

/-- C6: `is_valid` is idempotent on a still-live connection — as long as
the connection stays live (open, with each next probe answered by a
successful reply), every one of the repeated successive `is_valid` calls
succeeds. -/
theorem C6_is_valid_idempotent (m : RedisConnectionManager)
    (conn : Connection) (n : Nat) (h : liveFor conn n) :
    keepsSucceeding m conn n := by
  induction n generalizing conn with
  | zero => trivial
  | succ k ih =>
    obtain ⟨hOpen, hScript⟩ := h
    obtain ⟨v, hv⟩ := hScript 0 (Nat.succ_pos k)
    rw [Nat.add_zero] at hv
    refine ⟨by simp [is_valid, pingQuery, hOpen, hv], ?_⟩
    have hnext : ((is_valid m conn).1).2 =
        { conn with served := conn.served + 1 } := by
      simp [is_valid, pingQuery, hOpen, hv]
    rw [hnext]
    apply ih
    refine ⟨hOpen, ?_⟩
    intro i hi
    obtain ⟨w, hw⟩ := hScript (i + 1) (Nat.succ_lt_succ hi)
    refine ⟨w, ?_⟩
    simpa [Nat.add_assoc, Nat.add_comm 1 i] using hw

/-- C6 witness: on a connection whose server always answers PONG, three
successive `is_valid` calls all succeed. -/
theorem C6_is_valid_idempotent_witness :
    liveFor connLive 3 ∧ keepsSucceeding mgrH connLive 3 :=
  ⟨⟨rfl, fun _ _ => ⟨"PONG", rfl⟩⟩,
   C6_is_valid_idempotent mgrH connLive 3 ⟨rfl, fun _ _ => ⟨"PONG", rfl⟩⟩⟩

/-- C7: every adapter operation is a total function returning its result
exactly once to the caller, and its event trace shows no logging and no
internal retry: construction and `has_broken` perform no network events,
`connect` performs exactly one connection attempt per call, and `is_valid`
performs exactly one probe round-trip per call. -/
theorem C7_no_panic_no_log_no_retry (p : Params) (t : Option Nat)
    (m : RedisConnectionManager) (net : Net) (conn : Connection) :
    (new p).2 = [] ∧ (with_timeout p t).2 = [] ∧
    (connect m net).2 = [NetEvent.connectAttempt m.connection_info m.timeout] ∧
    (is_valid m conn).2 = [NetEvent.pingRoundTrip] ∧
    (has_broken m conn).2 = [] :=
  ⟨rfl, rfl, rfl, rfl, rfl⟩

/-- C8: the adapter is immutable after construction — after any sequence
of `connect`, `is_valid` and `has_broken` operations, the adapter value
and both its fields (`connection_info` and `timeout`) are exactly as
constructed. -/
theorem C8_adapter_immutable (net : Net) (s : SysState) (ops : List PoolOp) :
    (runOps net s ops).mgr = s.mgr ∧
    (runOps net s ops).mgr.connection_info = s.mgr.connection_info ∧
    (runOps net s ops).mgr.timeout = s.mgr.timeout := by
  have h : ∀ t, (runOps net t ops).mgr = t.mgr := by
    induction ops with
    | nil => intro t; rfl
    | cons op rest ih =>
      intro t
      calc (runOps net (stepOp net t op) rest).mgr
          = (stepOp net t op).mgr := ih _
        _ = t.mgr := stepOp_mgr net t op
  exact ⟨h s, by rw [h s], by rw [h s]⟩

/-- C9: `new` returns exactly the result of `with_timeout` with no
timeout: the two agree on success and failure alike, and a successful
`new` stores no timeout. -/
theorem C9_new_refines_with_timeout (p : Params) :
    new p = with_timeout p none ∧
    (∀ m, (new p).1 = .ok m → m.timeout = none) := by
  refine ⟨rfl, ?_⟩
  intro m hm
  unfold new with_timeout at hm
  cases hp : intoConnectionInfo p with
  | ok ci => rw [hp] at hm; simp [Except.map] at hm; simp [← hm]
  | error e => rw [hp] at hm; simp [Except.map] at hm

/-- C9 witness: `new` on a valid URL yields the adapter with no
timeout. -/
theorem C9_new_refines_with_timeout_witness :
    ((new (Params.url "redis://h")).1 = .ok mgrH) ∧ mgrH.timeout = none :=
  ⟨by decide,
   (C9_new_refines_with_timeout (Params.url "redis://h")).2 mgrH (by decide)⟩

/-- C10: a successful `with_timeout` with a concrete duration stores
exactly that duration and the converted connection info, and every
subsequent `connect` performs the timed attempt with exactly the stored
duration. -/
theorem C10_timeout_stored_and_used (p : Params) (d : Nat)
    (m : RedisConnectionManager)
    (hm : (with_timeout p (some d)).1 = .ok m) :
    m.timeout = some d ∧
    intoConnectionInfo p = .ok m.connection_info ∧
    ∀ net, (connect m net).1 =
      Client.get_connection_with_timeout ⟨m.connection_info⟩ d net := by
  unfold with_timeout at hm
  cases hp : intoConnectionInfo p with
  | ok ci =>
    rw [hp] at hm
    simp [Except.map] at hm
    refine ⟨by simp [← hm], by simp [← hm, hp], ?_⟩
    intro net
    simp [connect, Client.openClient, Except.bind, ← hm]
  | error e => rw [hp] at hm; simp [Except.map] at hm

/-- C10 witness: constructing with a 5 ms timeout stores exactly 5, and
`connect` performs the timed attempt with bound 5. -/
theorem C10_timeout_stored_and_used_witness :
    ((with_timeout (Params.url "redis://h") (some 5)).1 = .ok mgrH5) ∧
    mgrH5.timeout = some 5 ∧
    (connect mgrH5 netAccept).1 =
      Client.get_connection_with_timeout ⟨mgrH5.connection_info⟩ 5 netAccept :=
  ⟨by decide,
   (C10_timeout_stored_and_used (Params.url "redis://h") 5 mgrH5 (by decide)).1,
   (C10_timeout_stored_and_used (Params.url "redis://h") 5 mgrH5
     (by decide)).2.2 netAccept⟩

end RedisR2d2
